import Mathlib

/-!
Verification of the Strawberry music player sources.

Each section embeds one source file's relevant functions as Lean
definitions, translated from the C++ sources, and proves the stated
properties about them.
-/

set_option autoImplicit false

namespace Strawberry

/-!
### Playlist backend — src/src/playlist/playlistbackend.cpp

The database is modelled as the two tables the backend touches:
`playlists` (one row per playlist, keyed by ROWID) and `playlist_items`
(one row per item, with a `playlist` foreign key).  A `playlist_items`
row stores the bound item payload abstractly (type `α`); reading a row
back with `NewPlaylistItemFromQuery` yields that payload.  SQLite
returns the rows of a `SELECT` without `ORDER BY` in rowid order, and
fresh inserts receive increasing rowids, so the table is modelled as a
list in insertion order and an `INSERT` appends to it.

Each SQL statement can fail; `ScopedTransaction` (BEGIN on
construction, ROLLBACK on destruction unless `Commit` was called)
makes an early `return` restore the database unchanged.  Statement
outcomes are passed in as explicit `Bool` oracles, one per statement
in execution order.
-/

/-- A row of the `playlists` table, with the columns the backend reads
and writes (`GetPlaylist`, `SavePlaylist`, `RemovePlaylist`). -/
structure PlaylistRow where
  rowid : Int
  name : String
  special_type : String
  ui_path : String
  favorite : Bool
  last_played : Int
  dynamic_playlist_type : Int
  dynamic_playlist_data : String
  dynamic_playlist_backend : String
  deriving DecidableEq

/-- A row of the `playlist_items` table: the `playlist` foreign key and
the bound item payload (the `type`, `collection_id` and song columns,
abstracted as `α`). -/
structure ItemRow (α : Type) where
  playlist : Int
  item : α
  deriving DecidableEq

/-- The two tables touched by `PlaylistBackend`. -/
structure PlaylistDB (α : Type) where
  playlists : List PlaylistRow
  playlist_items : List (ItemRow α)
  deriving DecidableEq

/-- The data `SavePlaylist` binds from a non-null `PlaylistGeneratorPtr`:
`dynamic->type()`, `dynamic->Save()` and
`dynamic->collection()->songs_table()`. -/
structure DynamicInfo where
  dtype : Int
  ddata : String
  dbackend : String
  deriving DecidableEq

/-- Model of `PlaylistBackend::GetPlaylistItems`: `SELECT ... FROM playlist_items
AS p LEFT JOIN songs ... WHERE p.playlist = :playlist`, reconstructing
one item per returned row. -/
def getPlaylistItems {α : Type} (db : PlaylistDB α) (playlist : Int) : List α :=
  (db.playlist_items.filter (fun r => r.playlist == playlist)).map ItemRow.item

/-- The insert loop of `PlaylistBackend::SavePlaylist`: one `INSERT INTO
playlist_items` per item, in order; a failing statement makes the
function return early (`none`, which the transaction turns into a
rollback).  `oks` lists each insert statement's outcome; a missing
entry counts as success. -/
def insertItems {α : Type} (rows : List (ItemRow α)) (playlist : Int) :
    List α → List Bool → Option (List (ItemRow α))
  | [], _ => some rows
  | item :: rest, [] => insertItems (rows ++ [⟨playlist, item⟩]) playlist rest []
  | item :: rest, ok :: oks =>
    if ok then insertItems (rows ++ [⟨playlist, item⟩]) playlist rest oks
    else none

/-- The `UPDATE playlists SET last_played=..., dynamic_playlist_type=...,
dynamic_playlist_data=..., dynamic_playlist_backend=... WHERE
ROWID=:playlist` statement of `SavePlaylist`, applied to one row. -/
def updatePlaylistRow (playlist : Int) (last_played : Int)
    (dynamic : Option DynamicInfo) (p : PlaylistRow) : PlaylistRow :=
  if p.rowid == playlist then
    { p with
      last_played := last_played
      dynamic_playlist_type := (dynamic.map DynamicInfo.dtype).getD 0
      dynamic_playlist_data := (dynamic.map DynamicInfo.ddata).getD ""
      dynamic_playlist_backend := (dynamic.map DynamicInfo.dbackend).getD "" }
  else p

/-- Model of `PlaylistBackend::SavePlaylist`: inside one `ScopedTransaction`,
`DELETE FROM playlist_items WHERE playlist = :playlist`, then one
`INSERT` per item in order, then the `UPDATE playlists ...` row update,
then `Commit`.  Any failing statement returns early, rolling back to
the original database. -/
def savePlaylist {α : Type} (db : PlaylistDB α) (playlist : Int) (items : List α)
    (last_played : Int) (dynamic : Option DynamicInfo)
    (okDelete : Bool) (okInsert : List Bool) (okUpdate : Bool) : PlaylistDB α :=
  if !okDelete then db
  else
    match insertItems (db.playlist_items.filter (fun r => !(r.playlist == playlist)))
        playlist items okInsert with
    | none => db
    | some rows =>
      if !okUpdate then db
      else
        { playlists := db.playlists.map (updatePlaylistRow playlist last_played dynamic)
          playlist_items := rows }

/-- Model of `PlaylistBackend::RemovePlaylist`: inside one `ScopedTransaction`,
`DELETE FROM playlists WHERE ROWID=:id`, then `DELETE FROM
playlist_items WHERE playlist=:id`, then `Commit`; a failing statement
returns early, rolling back. -/
def removePlaylist {α : Type} (db : PlaylistDB α) (id : Int)
    (okPlaylists okItems : Bool) : PlaylistDB α :=
  if !okPlaylists then db
  else if !okItems then db
  else
    { playlists := db.playlists.filter (fun p => !(p.rowid == id))
      playlist_items := db.playlist_items.filter (fun r => !(r.playlist == id)) }

theorem filter_filter_ne_playlist {α : Type} (p : Int) (l : List (ItemRow α)) :
    (l.filter (fun r => !(r.playlist == p))).filter (fun r => r.playlist == p) = [] := by
  induction l with
  | nil => rfl
  | cons r rest ih =>
    cases hb : (r.playlist == p) with
    | true => simp [List.filter_cons, hb, ih]
    | false => simp [List.filter_cons, hb, ih]

theorem filter_map_same_playlist {α : Type} (p : Int) (items : List α) :
    (items.map (fun it => (⟨p, it⟩ : ItemRow α))).filter (fun r => r.playlist == p)
      = items.map (fun it => (⟨p, it⟩ : ItemRow α)) := by
  induction items with
  | nil => rfl
  | cons it rest ih => simp [List.filter, ih]

theorem insertItems_fail {α : Type} (playlist : Int) (items : List α) :
    ∀ (rows : List (ItemRow α)) (oks : List Bool),
      false ∈ oks.take items.length →
      insertItems rows playlist items oks = none := by
  induction items with
  | nil => intro rows oks h; simp at h
  | cons item rest ih =>
    intro rows oks h
    cases oks with
    | nil => simp at h
    | cons ok oks' =>
      rw [List.length_cons, List.take_succ_cons, List.mem_cons] at h
      rcases h with h | h
      · rw [insertItems, ← h]
        simp
      · rw [insertItems]
        cases ok with
        | false => simp
        | true => simp only [if_true]; exact ih _ oks' h

theorem insertItems_ok {α : Type} (playlist : Int) (items : List α) :
    ∀ (rows : List (ItemRow α)) (oks : List Bool),
      false ∉ oks.take items.length →
      insertItems rows playlist items oks =
        some (rows ++ items.map (fun it => (⟨playlist, it⟩ : ItemRow α))) := by
  induction items with
  | nil => intro rows oks _; simp [insertItems]
  | cons item rest ih =>
    intro rows oks h
    cases oks with
    | nil =>
      rw [insertItems, ih _ [] (by simp)]
      simp
    | cons ok oks' =>
      rw [List.length_cons, List.take_succ_cons, List.mem_cons] at h
      push_neg at h
      obtain ⟨h1, h2⟩ := h
      cases ok with
      | false => exact absurd rfl (Ne.symm h1)
      | true =>
        rw [insertItems]
        simp only [if_true]
        rw [ih _ oks' h2]
        simp

/-- C1: Playlist persistence round-trip: if every SQL statement of
`SavePlaylist(playlist, items, last_played, dynamic)` succeeds, a
subsequent `GetPlaylistItems(playlist)` returns exactly the saved
items — same payloads, same count, same order — because `SavePlaylist`
first deletes all `playlist_items` rows of that playlist and then
inserts the given items in order. -/
theorem savePlaylist_getPlaylistItems_roundtrip {α : Type} (db : PlaylistDB α)
    (playlist : Int) (items : List α) (last_played : Int)
    (dynamic : Option DynamicInfo) (okInsert : List Bool)
    (hok : ∀ b ∈ okInsert, b = true) :
    getPlaylistItems
      (savePlaylist db playlist items last_played dynamic true okInsert true)
      playlist = items := by
  have hins : false ∉ okInsert.take items.length := by
    intro hmem
    have := hok false (List.take_subset _ _ hmem)
    simp at this
  rw [savePlaylist]
  rw [insertItems_ok playlist items _ okInsert hins]
  simp only [Bool.not_true, Bool.false_eq_true, if_false]
  rw [getPlaylistItems]
  simp only [List.filter_append]
  rw [filter_filter_ne_playlist, filter_map_same_playlist]
  simp [Function.comp_def]

/-- C1 witness: a concrete round-trip. -/
theorem savePlaylist_getPlaylistItems_roundtrip_witness :
    getPlaylistItems
      (savePlaylist (⟨[], [⟨2, 99⟩]⟩ : PlaylistDB Nat) 1 [10, 20, 30] 5 none
        true [true, true, true] true) 1 = [10, 20, 30] :=
  savePlaylist_getPlaylistItems_roundtrip _ 1 [10, 20, 30] 5 none
    [true, true, true] (by decide)

/-- C2: `SavePlaylist` is atomic: delete, inserts and the playlists-row
update run inside one transaction which commits only if every
statement succeeds; if any statement fails the call returns before
`Commit` and the stored playlist (items and `last_played`/dynamic
fields) is exactly as before. -/
theorem savePlaylist_atomic {α : Type} (db : PlaylistDB α) (playlist : Int)
    (items : List α) (last_played : Int) (dynamic : Option DynamicInfo)
    (okDelete : Bool) (okInsert : List Bool) (okUpdate : Bool) :
    (¬(okDelete = true ∧ okUpdate = true ∧ false ∉ okInsert.take items.length) →
      savePlaylist db playlist items last_played dynamic okDelete okInsert okUpdate
        = db) ∧
    (okDelete = true ∧ okUpdate = true ∧ false ∉ okInsert.take items.length →
      savePlaylist db playlist items last_played dynamic okDelete okInsert okUpdate
        = { playlists := db.playlists.map (updatePlaylistRow playlist last_played dynamic)
            playlist_items :=
              db.playlist_items.filter (fun r => !(r.playlist == playlist))
                ++ items.map (fun it => (⟨playlist, it⟩ : ItemRow α)) }) := by
  constructor
  · intro h
    rw [savePlaylist]
    cases okDelete with
    | false => simp
    | true =>
      simp only [Bool.not_true, Bool.false_eq_true, if_false]
      by_cases hins : false ∈ okInsert.take items.length
      · rw [insertItems_fail playlist items _ okInsert hins]
      · rw [insertItems_ok playlist items _ okInsert hins]
        cases okUpdate with
        | false => simp
        | true => exact absurd ⟨rfl, rfl, hins⟩ h
  · rintro ⟨hd, hu, hins⟩
    subst hd; subst hu
    rw [savePlaylist]
    simp only [Bool.not_true, Bool.false_eq_true, if_false]
    rw [insertItems_ok playlist items _ okInsert hins]

/-- C2 witness: a failing insert leaves a concrete database unchanged,
and an all-success run commits the rewritten tables. -/
theorem savePlaylist_atomic_witness :
    savePlaylist (⟨[], [⟨1, 7⟩]⟩ : PlaylistDB Nat) 1 [10, 20] 5 none true
      [true, false] true = (⟨[], [⟨1, 7⟩]⟩ : PlaylistDB Nat) :=
  (savePlaylist_atomic (⟨[], [⟨1, 7⟩]⟩ : PlaylistDB Nat) 1 [10, 20] 5 none true
    [true, false] true).1 (by decide)

/-- C7: `RemovePlaylist(id)` deletes exactly the `playlists` row with
`ROWID = id` and the `playlist_items` rows with `playlist = id`,
inside one transaction (a failing statement leaves the database
unchanged), and every other playlists row and every item row of a
different playlist survives; in particular every other playlist's
items read back unchanged. -/
theorem removePlaylist_frame {α : Type} (db : PlaylistDB α) (id : Int)
    (okPlaylists okItems : Bool) :
    (okPlaylists = false ∨ okItems = false →
      removePlaylist db id okPlaylists okItems = db) ∧
    ((removePlaylist db id true true).playlists
        = db.playlists.filter (fun p => !(p.rowid == id))) ∧
    (∀ r ∈ (removePlaylist db id true true).playlists, r.rowid ≠ id) ∧
    (∀ r ∈ (removePlaylist db id true true).playlist_items, r.playlist ≠ id) ∧
    (∀ r ∈ db.playlists, r.rowid ≠ id →
      r ∈ (removePlaylist db id true true).playlists) ∧
    (∀ r ∈ db.playlist_items, r.playlist ≠ id →
      r ∈ (removePlaylist db id true true).playlist_items) ∧
    (∀ r ∈ (removePlaylist db id true true).playlists, r ∈ db.playlists) ∧
    (∀ r ∈ (removePlaylist db id true true).playlist_items, r ∈ db.playlist_items) ∧
    (∀ q, q ≠ id →
      getPlaylistItems (removePlaylist db id true true) q = getPlaylistItems db q) := by
  have hre : removePlaylist db id true true
      = { playlists := db.playlists.filter (fun p => !(p.rowid == id))
          playlist_items := db.playlist_items.filter (fun r => !(r.playlist == id)) } := rfl
  refine ⟨?_, by rw [hre], ?_, ?_, ?_, ?_, ?_, ?_, ?_⟩
  · rintro (h | h) <;> subst h <;> [skip; cases okPlaylists] <;> rfl
  · intro r hr
    rw [hre] at hr
    simp only [List.mem_filter, Bool.not_eq_eq_eq_not, Bool.not_true, beq_eq_false_iff_ne] at hr
    exact hr.2
  · intro r hr
    rw [hre] at hr
    simp only [List.mem_filter, Bool.not_eq_eq_eq_not, Bool.not_true, beq_eq_false_iff_ne] at hr
    exact hr.2
  · intro r hr hne
    rw [hre]
    simp only [List.mem_filter, Bool.not_eq_eq_eq_not, Bool.not_true, beq_eq_false_iff_ne]
    exact ⟨hr, hne⟩
  · intro r hr hne
    rw [hre]
    simp only [List.mem_filter, Bool.not_eq_eq_eq_not, Bool.not_true, beq_eq_false_iff_ne]
    exact ⟨hr, hne⟩
  · intro r hr
    rw [hre] at hr
    exact (List.mem_filter.mp hr).1
  · intro r hr
    rw [hre] at hr
    exact (List.mem_filter.mp hr).1
  · intro q hq
    rw [hre, getPlaylistItems, getPlaylistItems]
    simp only [List.filter_filter]
    congr 1
    apply List.filter_congr
    intro r _
    cases h : r.playlist == q with
    | false => simp [h]
    | true =>
      have hrq : r.playlist = q := by exact_mod_cast eq_of_beq h
      simp [h, hrq, hq]

/-- C7 witness: removing playlist 1 from a concrete database keeps
playlist 2's row and items, and a failing first statement rolls back. -/
theorem removePlaylist_frame_witness :
    removePlaylist (⟨[], [⟨1, 7⟩, ⟨2, 8⟩]⟩ : PlaylistDB Nat) 1 false true
        = (⟨[], [⟨1, 7⟩, ⟨2, 8⟩]⟩ : PlaylistDB Nat) ∧
    getPlaylistItems
        (removePlaylist (⟨[], [⟨1, 7⟩, ⟨2, 8⟩]⟩ : PlaylistDB Nat) 1 true true) 2
      = getPlaylistItems (⟨[], [⟨1, 7⟩, ⟨2, 8⟩]⟩ : PlaylistDB Nat) 2 :=
  ⟨(removePlaylist_frame (⟨[], [⟨1, 7⟩, ⟨2, 8⟩]⟩ : PlaylistDB Nat) 1 false true).1
      (Or.inl rfl),
   (removePlaylist_frame (⟨[], [⟨1, 7⟩, ⟨2, 8⟩]⟩ : PlaylistDB Nat) 1 true true).2.2.2.2.2.2.2.2
      2 (by decide)⟩

/-!
### GStreamer pipeline wrapper — src/src/engine/gstenginepipeline.cpp

The pipeline wrapper is modelled as a state record holding the member
variables the verified functions read and write, plus a list of
emitted actions (Qt signals and requested GStreamer state changes).
GStreamer elements are identified by opaque numbers; `state()` (the
state GStreamer currently reports for the pipeline) is a field of the
state record, and `SetState` requests are recorded as actions.
-/

/-- The GStreamer element states used by the pipeline wrapper. -/
inductive GstState where
  | voidPending
  | null
  | ready
  | paused
  | playing
  deriving DecidableEq

/-- Observable effects of the modelled member functions: emitted Qt
signals, `SetState` requests and `g_object_set(pipeline, "uri", ...)`
assignments, in program order. -/
inductive PipelineAction where
  | bufferingStarted
  | bufferingFinished
  | bufferingProgress (percent : Int)
  | requestState (s : GstState)
  | setUri (uri : String)
  deriving DecidableEq

/-- A GStreamer buffering message: its source element (an opaque
identity) and the percent extracted by `gst_message_parse_buffering`. -/
structure BufferingMsg where
  src : Nat
  percent : Int
  deriving DecidableEq

/-- The `GstEnginePipeline` members read or written by
`BufferingMessageReceived`, `AboutToFinishCallback` and `SetNextUrl`.
`pipeline_uri` is the playbin's `uri` property. -/
structure PipelineState where
  audioqueue : Nat
  buffering : Bool
  current_state : GstState
  stream_url : String
  next_stream_url : String
  next_original_url : String
  next_beginning_offset_nanosec : Int
  next_end_offset_nanosec : Int
  next_uri_set : Bool
  pipeline_uri : String
  deriving DecidableEq

/-- Model of `GstEnginePipeline::BufferingMessageReceived`: ignore messages not
coming from the pipeline's own `audioqueue_`; at percent 0 while
PLAYING and not yet buffering, set `buffering_`, emit
`BufferingStarted` and request PAUSED; at percent 100 while buffering,
clear `buffering_`, emit `BufferingFinished` and request PLAYING;
otherwise, while buffering, emit `BufferingProgress(percent)`. -/
def bufferingMessageReceived (st : PipelineState) (msg : BufferingMsg) :
    PipelineState × List PipelineAction :=
  if msg.src ≠ st.audioqueue then (st, [])
  else if msg.percent = 0 ∧ st.current_state = GstState.playing ∧ st.buffering = false then
    ({ st with buffering := true },
     [PipelineAction.bufferingStarted, PipelineAction.requestState GstState.paused])
  else if msg.percent = 100 ∧ st.buffering = true then
    ({ st with buffering := false },
     [PipelineAction.bufferingFinished, PipelineAction.requestState GstState.playing])
  else if st.buffering = true then
    (st, [PipelineAction.bufferingProgress msg.percent])
  else (st, [])

/-- C3: Buffering state transitions of
`GstEnginePipeline::BufferingMessageReceived`: messages whose source is
not the pipeline's own audioqueue element are ignored; at percent 0 in
PLAYING while not buffering the flag is set, `BufferingStarted` is
emitted and PAUSED is requested; at percent 100 while buffering the
flag is cleared, `BufferingFinished` is emitted and PLAYING is
requested; any other percent while buffering only emits
`BufferingProgress(percent)` without changing state. -/
theorem bufferingMessageReceived_transitions (st : PipelineState) (msg : BufferingMsg) :
    (msg.src ≠ st.audioqueue → bufferingMessageReceived st msg = (st, [])) ∧
    (msg.src = st.audioqueue → msg.percent = 0 →
      st.current_state = GstState.playing → st.buffering = false →
      bufferingMessageReceived st msg =
        ({ st with buffering := true },
         [PipelineAction.bufferingStarted, PipelineAction.requestState GstState.paused])) ∧
    (msg.src = st.audioqueue → msg.percent = 100 → st.buffering = true →
      bufferingMessageReceived st msg =
        ({ st with buffering := false },
         [PipelineAction.bufferingFinished, PipelineAction.requestState GstState.playing])) ∧
    (msg.src = st.audioqueue → st.buffering = true → msg.percent ≠ 100 →
      bufferingMessageReceived st msg =
        (st, [PipelineAction.bufferingProgress msg.percent])) := by
  refine ⟨?_, ?_, ?_, ?_⟩
  · intro h
    simp [bufferingMessageReceived, h]
  · intro hsrc hp hstate hbuf
    simp [bufferingMessageReceived, hsrc, hp, hstate, hbuf]
  · intro hsrc hp hbuf
    simp [bufferingMessageReceived, hsrc, hp, hbuf]
  · intro hsrc hbuf hp
    simp [bufferingMessageReceived, hsrc, hbuf, hp]

/-- C3 witness: concrete transitions on a concrete pipeline state. -/
theorem bufferingMessageReceived_transitions_witness :
    bufferingMessageReceived ⟨7, false, GstState.playing, "a", "", "", 0, 0, false, "a"⟩ ⟨7, 0⟩ =
      (⟨7, true, GstState.playing, "a", "", "", 0, 0, false, "a"⟩,
       [PipelineAction.bufferingStarted, PipelineAction.requestState GstState.paused]) ∧
    bufferingMessageReceived ⟨7, true, GstState.playing, "a", "", "", 0, 0, false, "a"⟩ ⟨9, 50⟩ =
      (⟨7, true, GstState.playing, "a", "", "", 0, 0, false, "a"⟩, []) ∧
    bufferingMessageReceived ⟨7, true, GstState.playing, "a", "", "", 0, 0, false, "a"⟩ ⟨7, 50⟩ =
      (⟨7, true, GstState.playing, "a", "", "", 0, 0, false, "a"⟩,
       [PipelineAction.bufferingProgress 50]) :=
  ⟨(bufferingMessageReceived_transitions _ _).2.1 rfl rfl rfl rfl,
   (bufferingMessageReceived_transitions _ _).1 (by decide),
   (bufferingMessageReceived_transitions _ _).2.2.2 rfl rfl (by decide)⟩

/-- Modelled from the spec: `has_next_valid_url()` is declared in
gstenginepipeline.h, which is not among the sources.  Per the spec and
the call sites, it holds exactly when a valid next URL has been stored
by `SetNextUrl`, i.e. when `next_stream_url_` is non-empty. -/
def has_next_valid_url (st : PipelineState) : Bool :=
  !(st.next_stream_url == "")

/-- Model of `GstEnginePipeline::AboutToFinishCallback`: when a valid next URL is
stored and `next_uri_set_` is not yet set, set `next_uri_set_` and
assign the playbin's `uri` property to the next stream URL. -/
def aboutToFinishCallback (st : PipelineState) : PipelineState × List PipelineAction :=
  if has_next_valid_url st = true ∧ st.next_uri_set = false then
    ({ st with next_uri_set := true, pipeline_uri := st.next_stream_url },
     [PipelineAction.setUri st.next_stream_url])
  else (st, [])

/-- Model of `GstEnginePipeline::SetNextUrl`: store the next stream URL, original
URL and offsets.  It does not touch `next_uri_set_`. -/
def setNextUrl (st : PipelineState) (stream_url original_url : String)
    (beginning_nanosec end_nanosec : Int) : PipelineState :=
  { st with
    next_stream_url := stream_url
    next_original_url := original_url
    next_beginning_offset_nanosec := beginning_nanosec
    next_end_offset_nanosec := end_nanosec }

/-- C4: Gapless sequencing sets the next URI at most once: the callback
assigns the playbin's `uri` exactly when a valid next URL is stored and
`next_uri_set_` is false, setting `next_uri_set_` in the process; once
the flag is set the callback never assigns again — also not after
another `SetNextUrl`, which leaves the flag untouched. -/
theorem aboutToFinishCallback_sets_uri_once (st : PipelineState) :
    ((aboutToFinishCallback st).2 ≠ [] ↔
      has_next_valid_url st = true ∧ st.next_uri_set = false) ∧
    ((aboutToFinishCallback st).2 ≠ [] →
      (aboutToFinishCallback st).2 = [PipelineAction.setUri st.next_stream_url] ∧
      (aboutToFinishCallback st).1.next_uri_set = true ∧
      (aboutToFinishCallback st).1.pipeline_uri = st.next_stream_url) ∧
    (st.next_uri_set = true → aboutToFinishCallback st = (st, [])) ∧
    (∀ u o b e, (setNextUrl st u o b e).next_uri_set = st.next_uri_set) ∧
    ((aboutToFinishCallback st).2 ≠ [] →
      (aboutToFinishCallback (aboutToFinishCallback st).1).2 = [] ∧
      ∀ u o b e,
        (aboutToFinishCallback (setNextUrl (aboutToFinishCallback st).1 u o b e)).2 = []) := by
  by_cases h : has_next_valid_url st = true ∧ st.next_uri_set = false
  · obtain ⟨h1, h2⟩ := h
    refine ⟨?_, ?_, ?_, ?_, ?_⟩
    · simp [aboutToFinishCallback, h1, h2]
    · intro _
      simp [aboutToFinishCallback, h1, h2]
    · intro hset
      rw [hset] at h2
      exact absurd h2 (by simp)
    · intro u o b e
      rfl
    · intro _
      constructor
      · simp [aboutToFinishCallback, h1, h2]
      · intro u o b e
        simp [aboutToFinishCallback, h1, h2, setNextUrl]
  · refine ⟨?_, ?_, ?_, ?_, ?_⟩
    · simp only [aboutToFinishCallback, if_neg h]
      simp [h]
    · intro hne
      simp only [aboutToFinishCallback, if_neg h] at hne
      simp at hne
    · intro _
      simp [aboutToFinishCallback, h]
    · intro u o b e
      rfl
    · intro hne
      simp only [aboutToFinishCallback, if_neg h] at hne
      simp at hne

/-- C4 witness: on a concrete state the first callback assigns the uri
and sets the flag, the second callback does nothing. -/
theorem aboutToFinishCallback_sets_uri_once_witness :
    (aboutToFinishCallback ⟨7, false, GstState.playing, "a", "b", "b", 0, 0, false, "a"⟩).2
      = [PipelineAction.setUri "b"] ∧
    (aboutToFinishCallback
      (aboutToFinishCallback ⟨7, false, GstState.playing, "a", "b", "b", 0, 0, false, "a"⟩).1).2
      = [] :=
  ⟨((aboutToFinishCallback_sets_uri_once _).2.1 (by decide)).1,
   ((aboutToFinishCallback_sets_uri_once
      ⟨7, false, GstState.playing, "a", "b", "b", 0, 0, false, "a"⟩).2.2.2.2 (by decide)).1⟩

/-!
### Crossfading — GstEnginePipeline::StartFader

`QTimeLine` is modelled by its duration and current time in
milliseconds, its direction, its easing curve (the value as a function
of progress, `currentValue() = easingCurve.valueForProgress(currentTime
/ duration)`) and its running flag.  Real arithmetic is modelled on ℚ.
-/

/-- Model of `QTimeLine::Direction`. -/
inductive FadeDirection where
  | forward
  | backward
  deriving DecidableEq

/-- A `QTimeLine` as the fader uses it. -/
structure Fader where
  duration : Int
  current_time : Int
  direction : FadeDirection
  shape : ℚ → ℚ
  running : Bool

/-- Model of `QTimeLine::currentValue()`: the easing curve evaluated at
`currentTime / duration`. -/
def faderValue (f : Fader) : ℚ :=
  f.shape ((f.current_time : ℚ) / (f.duration : ℚ))

/-- The `GstEnginePipeline` members `StartFader` touches. -/
structure FaderEnv where
  fader : Option Fader
  volume_modifier : ℚ
  use_fudge_timer : Bool
  fudge_timer_active : Bool

def kNsecPerMsec : Int := 1000000

/-- Model of `qRound` of Qt, on ℚ: round half away from zero (for `d >= 0` it is
`int(d + 0.5)`, else `int(d - 0.5)`). -/
def qRound (x : ℚ) : Int :=
  if 0 ≤ x then ⌊x + 1/2⌋ else ⌈x - 1/2⌉

/-- Model of `GstEnginePipeline::StartFader`.  `duration_nanosec / kNsecPerMsec`
is C++ integer division (truncation toward zero, `Int.tdiv`).  When a
fader is already running, the new fader starts at the old fader's
current time (equal durations) or at that time rescaled to the new
duration and rounded; otherwise at 0 (forward) or at the full duration
(backward).  The new fader's current value is applied as the volume
modifier immediately. -/
def startFader (env : FaderEnv) (duration_nanosec : Int)
    (direction : FadeDirection) (shape : ℚ → ℚ) (use_fudge_timer : Bool) : FaderEnv :=
  let duration_msec := duration_nanosec.tdiv kNsecPerMsec
  let start_time :=
    match env.fader with
    | some f =>
      if f.running then
        if duration_msec = f.duration then f.current_time
        else qRound ((duration_msec : ℚ) * ((f.current_time : ℚ) / (f.duration : ℚ)))
      else if direction = FadeDirection.forward then 0 else duration_msec
    | none => if direction = FadeDirection.forward then 0 else duration_msec
  let f' : Fader :=
    { duration := duration_msec
      current_time := start_time
      direction := direction
      shape := shape
      running := true }
  { fader := some f'
    volume_modifier := faderValue f'
    use_fudge_timer := use_fudge_timer
    fudge_timer_active := false }

/-- C5: Crossfade continuity of `StartFader`: while another fader is
running the new fader starts at the old fader's current time when the
durations are equal, and otherwise at `new_duration * old_current /
old_duration` rounded; with no running fader it starts at 0 (forward
fade) or the full duration (backward fade); and in every case the new
fader's current value is applied as the volume modifier immediately. -/
theorem startFader_continuity (env : FaderEnv) (duration_nanosec : Int)
    (direction : FadeDirection) (shape : ℚ → ℚ) (use_fudge : Bool) :
    ((startFader env duration_nanosec direction shape use_fudge).fader.map Fader.duration
        = some (duration_nanosec.tdiv kNsecPerMsec)) ∧
    (∀ f, env.fader = some f → f.running = true →
      duration_nanosec.tdiv kNsecPerMsec = f.duration →
      (startFader env duration_nanosec direction shape use_fudge).fader.map Fader.current_time
        = some f.current_time) ∧
    (∀ f, env.fader = some f → f.running = true →
      duration_nanosec.tdiv kNsecPerMsec ≠ f.duration →
      (startFader env duration_nanosec direction shape use_fudge).fader.map Fader.current_time
        = some (qRound (((duration_nanosec.tdiv kNsecPerMsec : Int) : ℚ)
            * ((f.current_time : ℚ) / (f.duration : ℚ))))) ∧
    (env.fader = none →
      (startFader env duration_nanosec direction shape use_fudge).fader.map Fader.current_time
        = some (if direction = FadeDirection.forward then 0
                else duration_nanosec.tdiv kNsecPerMsec)) ∧
    (∀ f, env.fader = some f → f.running = false →
      (startFader env duration_nanosec direction shape use_fudge).fader.map Fader.current_time
        = some (if direction = FadeDirection.forward then 0
                else duration_nanosec.tdiv kNsecPerMsec)) ∧
    ((startFader env duration_nanosec direction shape use_fudge).volume_modifier
      = shape ((((startFader env duration_nanosec direction shape use_fudge).fader.map
            Fader.current_time).getD 0 : ℚ)
          / ((duration_nanosec.tdiv kNsecPerMsec : Int) : ℚ))) := by
  refine ⟨rfl, ?_, ?_, ?_, ?_, ?_⟩
  · intro f hf hrun heq
    simp [startFader, hf, hrun, heq]
  · intro f hf hrun hne
    simp [startFader, hf, hrun, hne]
  · intro hf
    simp [startFader, hf]
  · intro f hf hrun
    simp [startFader, hf, hrun]
  · cases hf : env.fader with
    | none => simp [startFader, hf, faderValue]
    | some f =>
      cases hrun : f.running with
      | false => simp [startFader, hf, hrun, faderValue]
      | true => simp [startFader, hf, hrun, faderValue]

/-- C5 witness: rescaling a running fader (duration 4 ms at time 2 ms)
to a new 8 ms fade starts the new fader at 4 ms. -/
theorem startFader_continuity_witness :
    (startFader ⟨some ⟨4, 2, FadeDirection.forward, (fun x => x), true⟩, 0, false, false⟩
        8000000 FadeDirection.forward (fun x => x) false).fader.map Fader.current_time
      = some 4 := by
  rw [(startFader_continuity
        ⟨some ⟨4, 2, FadeDirection.forward, (fun x => x), true⟩, 0, false, false⟩
        8000000 FadeDirection.forward (fun x => x) false).2.2.1
      ⟨4, 2, FadeDirection.forward, (fun x => x), true⟩ rfl rfl (by decide)]
  have ht : Int.tdiv 8000000 kNsecPerMsec = 8 := by decide
  rw [ht]
  have harg : ((8 : Int) : ℚ) * (((2 : Int) : ℚ) / ((4 : Int) : ℚ)) = 4 := by norm_num
  have h4 : qRound (((8 : Int) : ℚ) * (((2 : Int) : ℚ) / ((4 : Int) : ℚ))) = 4 := by
    rw [qRound, harg, if_pos (by norm_num)]
    rw [show (4 : ℚ) + 1 / 2 = 9 / 2 by norm_num]
    rw [Int.floor_eq_iff]
    norm_num
  simp only [Fader.current_time] at h4 ⊢
  rw [h4]

/-!
### Logging levels — src/ext/libstrawberry-common/core/logging.cpp

`logging::SetLevels` parses a comma-separated list of `class:level`
items.  QStrings are modelled as lists of characters so that Qt's
`split` and `toInt` can be given faithful executable models.  The
state is the default level plus the per-class level map
(`sClassLevels`, a `QMap` whose `insert` replaces an existing key);
the model assumes `Init()` has run (`sClassLevels` non-null).
-/

/-- Modelled from the spec: the `Level` enum is declared in logging.h,
which is not among the sources.  The .cpp uses the ordering
Error < Warning < Info < Debug with the range check
`Level_Error <= level <= Level_Debug`; the standard values 0..3 are
used, only their order matters here. -/
def Level_Error : Int := 0

def Level_Warning : Int := 1

def Level_Info : Int := 2

def Level_Debug : Int := 3

/-- Model of `QString::split(sep)` with default behaviour (empty parts kept):
splitting an empty string yields one empty part. -/
def splitOnChar (sep : Char) : List Char → List (List Char)
  | [] => [[]]
  | x :: xs =>
    match splitOnChar sep xs with
    | [] => [[]]
    | y :: ys => if x = sep then [] :: y :: ys else (x :: y) :: ys

/-- Characters `QChar::isSpace` treats as whitespace (the ASCII ones;
the input to `SetLevels` is ASCII). -/
def isSpaceChar (c : Char) : Bool :=
  c = ' ' ∨ c = '\t' ∨ c = '\n' ∨ c = '\r'

/-- A run of decimal digits as a number, `none` when empty or
non-numeric. -/
def digitsToNat (s : List Char) : Option Nat :=
  if s = [] then none
  else if s.all Char.isDigit then
    some (s.foldl (fun n c => n * 10 + (c.toNat - '0'.toNat)) 0)
  else none

/-- Model of `QString::toInt(&ok)`: leading and trailing whitespace is ignored,
an optional sign is followed by decimal digits; anything else sets
`ok = false` (`none`).  Overflow also sets `ok = false` in Qt; it is
not modelled, since every out-of-`int`-range value is rejected by the
range check of `SetLevels` anyway. -/
def charListToInt (s : List Char) : Option Int :=
  let t := ((s.dropWhile isSpaceChar).reverse.dropWhile isSpaceChar).reverse
  match t with
  | '-' :: rest => (digitsToNat rest).map (fun n => -(n : Int))
  | '+' :: rest => (digitsToNat rest).map (fun n => (n : Int))
  | _ => (digitsToNat t).map (fun n => (n : Int))

/-- The logging state: `sDefaultLevel` and `sClassLevels`. -/
structure LogLevels where
  defaultLevel : Int
  classLevels : List (List Char × Int)
  deriving DecidableEq

/-- Model of `QMap::insert`: replace the value of an existing key, else add the
pair. -/
def insertLevel : List (List Char × Int) → List Char → Int → List (List Char × Int)
  | [], k, v => [(k, v)]
  | (k', v') :: rest, k, v =>
    if k' = k then (k, v) :: rest else (k', v') :: insertLevel rest k v

/-- One iteration of the `SetLevels` loop: split the item on `:`; with
one field the level is the field and the class name stays empty, with
two fields they are class name and level; otherwise `ok` stays false.
Unparsable or out-of-range levels are skipped; class name empty or `*`
sets the default level, any other class name sets that class's
level. -/
def applyLevelItem (st : LogLevels) (item : List Char) : LogLevels :=
  let class_level := splitOnChar ':' item
  let parsed : Option (List Char × Int) :=
    match class_level with
    | [lvl] =>
      match charListToInt lvl with
      | none => none
      | some n => some (([] : List Char), n)
    | [cls, lvl] =>
      match charListToInt lvl with
      | none => none
      | some n => some (cls, n)
    | _ => none
  match parsed with
  | none => st
  | some (cls, lvl) =>
    if lvl < Level_Error ∨ Level_Debug < lvl then st
    else if cls = [] ∨ cls = ['*'] then { st with defaultLevel := lvl }
    else { st with classLevels := insertLevel st.classLevels cls lvl }

/-- Model of `logging::SetLevels`: split the input on `,` and process each item
in order. -/
def setLevels (st : LogLevels) (levels : List Char) : LogLevels :=
  (splitOnChar ',' levels).foldl applyLevelItem st

/-- C10: `logging::SetLevels` skips malformed entries: per
comma-separated item, a level is applied only when the item has one or
two colon-separated fields, the last field parses as an integer and
that integer lies between `Level_Error` and `Level_Debug` inclusive; a
conforming item with class name empty or `*` sets the default level, a
conforming item with another class name sets that class's level, and a
non-conforming item changes nothing. -/
theorem setLevels_skips_malformed (st : LogLevels) (levels item : List Char) :
    (setLevels st levels = (splitOnChar ',' levels).foldl applyLevelItem st) ∧
    (∀ cls lvl r rest, splitOnChar ':' item = cls :: lvl :: r :: rest →
      applyLevelItem st item = st) ∧
    (∀ lvl, splitOnChar ':' item = [lvl] → charListToInt lvl = none →
      applyLevelItem st item = st) ∧
    (∀ cls lvl, splitOnChar ':' item = [cls, lvl] → charListToInt lvl = none →
      applyLevelItem st item = st) ∧
    (∀ lvl n, splitOnChar ':' item = [lvl] → charListToInt lvl = some n →
      n < Level_Error ∨ Level_Debug < n → applyLevelItem st item = st) ∧
    (∀ cls lvl n, splitOnChar ':' item = [cls, lvl] → charListToInt lvl = some n →
      n < Level_Error ∨ Level_Debug < n → applyLevelItem st item = st) ∧
    (∀ lvl n, splitOnChar ':' item = [lvl] → charListToInt lvl = some n →
      Level_Error ≤ n → n ≤ Level_Debug →
      applyLevelItem st item = { st with defaultLevel := n }) ∧
    (∀ cls lvl n, splitOnChar ':' item = [cls, lvl] → charListToInt lvl = some n →
      Level_Error ≤ n → n ≤ Level_Debug → cls = [] ∨ cls = ['*'] →
      applyLevelItem st item = { st with defaultLevel := n }) ∧
    (∀ cls lvl n, splitOnChar ':' item = [cls, lvl] → charListToInt lvl = some n →
      Level_Error ≤ n → n ≤ Level_Debug → cls ≠ [] → cls ≠ ['*'] →
      applyLevelItem st item =
        { st with classLevels := insertLevel st.classLevels cls n }) := by
  refine ⟨rfl, ?_, ?_, ?_, ?_, ?_, ?_, ?_, ?_⟩
  · intro cls lvl r rest hsplit
    rw [applyLevelItem, hsplit]
  · intro lvl hsplit hparse
    rw [applyLevelItem, hsplit]
    simp [hparse]
  · intro cls lvl hsplit hparse
    rw [applyLevelItem, hsplit]
    simp [hparse]
  · intro lvl n hsplit hparse hrange
    rw [applyLevelItem, hsplit]
    simp only [hparse]
    rw [if_pos hrange]
  · intro cls lvl n hsplit hparse hrange
    rw [applyLevelItem, hsplit]
    simp only [hparse]
    rw [if_pos hrange]
  · intro lvl n hsplit hparse h1 h2
    rw [applyLevelItem, hsplit]
    simp only [hparse]
    rw [if_neg (by simp only [Level_Error, Level_Debug] at h1 h2 ⊢; omega)]
    simp
  · intro cls lvl n hsplit hparse h1 h2 hcls
    rw [applyLevelItem, hsplit]
    simp only [hparse]
    rw [if_neg (by simp only [Level_Error, Level_Debug] at h1 h2 ⊢; omega),
      if_pos hcls]
  · intro cls lvl n hsplit hparse h1 h2 hc1 hc2
    rw [applyLevelItem, hsplit]
    simp only [hparse]
    rw [if_neg (by simp only [Level_Error, Level_Debug] at h1 h2 ⊢; omega),
      if_neg (by simp [hc1, hc2])]

/-- C10 witness: `*:2` sets the default level, `a:b:1` (three fields)
and `x:9` (out of range) change nothing, `Gst:0` sets class `Gst`. -/
theorem setLevels_skips_malformed_witness :
    applyLevelItem ⟨3, []⟩ ['*', ':', '2'] = ⟨2, []⟩ ∧
    applyLevelItem ⟨3, []⟩ ['a', ':', 'b', ':', '1'] = ⟨3, []⟩ ∧
    applyLevelItem ⟨3, []⟩ ['x', ':', '9'] = ⟨3, []⟩ ∧
    applyLevelItem ⟨3, []⟩ ['G', ':', '0'] = ⟨3, [(['G'], 0)]⟩ :=
  ⟨(setLevels_skips_malformed ⟨3, []⟩ [] ['*', ':', '2']).2.2.2.2.2.2.2.1
      ['*'] ['2'] 2 (by decide) (by decide) (by decide) (by decide) (Or.inr rfl),
   (setLevels_skips_malformed ⟨3, []⟩ [] ['a', ':', 'b', ':', '1']).2.1
      ['a'] ['b'] ['1'] [] (by decide),
   (setLevels_skips_malformed ⟨3, []⟩ [] ['x', ':', '9']).2.2.2.2.2.1
      ['x'] ['9'] 9 (by decide) (by decide) (by decide),
   (setLevels_skips_malformed ⟨3, []⟩ [] ['G', ':', '0']).2.2.2.2.2.2.2.2
      ['G'] ['0'] 0 (by decide) (by decide) (by decide) (by decide)
      (by decide) (by decide)⟩

/-!
### Qobuz stream-URL request — src/unnamed/part_000
(`QobuzStreamURLRequest::StreamURLReceived`)

The reply is modelled after the guards at the top of the function: the
reply data (only its emptiness matters), the JSON object extracted
from it (`ExtractJsonObj` returns an empty object on failure), and the
request's state.  JSON values carry Qt's conversions: `toInt` of a
non-number is 0, `toString` of a non-string is empty.  `QUrl::isValid`
and the `QMimeDatabase` suffix loop live in Qt; they enter as function
parameters (`urlValid`, the loop's resulting filetype per mimetype).
-/

/-- A Qt JSON value, as far as the request reads one. -/
inductive JVal where
  | jnum (n : Int)
  | jstr (s : String)
  | jbool (b : Bool)
  | jnull
  deriving DecidableEq

/-- A `QJsonObject` as key/value pairs. -/
abbrev JObj : Type := List (String × JVal)

/-- Model of `QJsonObject::contains`. -/
def jContains (o : JObj) (k : String) : Bool :=
  (List.any o (fun p => p.1 == k))

/-- Model of `QJsonObject::operator[]` (a missing key gives an undefined value,
read as null). -/
def jGet (o : JObj) (k : String) : JVal :=
  ((List.find? (fun p => p.1 == k) o).map Prod.snd).getD JVal.jnull

/-- Model of `QJsonValue::toInt` with default 0. -/
def jToInt : JVal → Int
  | JVal.jnum n => n
  | _ => 0

/-- Model of `QJsonValue::toString` with default empty. -/
def jToString : JVal → String
  | JVal.jstr s => s
  | _ => ""

/-- Model of `Song::FileType`, with the members this function names; every other
member is `known`. -/
inductive SongFileType where
  | unknown
  | stream
  | known (n : Nat)
  deriving DecidableEq

def kNsecPerSec : Int := 1000000000

/-- What `StreamURLReceived` does after its `reply_` guard: either the
re-login path (`need_login_ = true`, nothing emitted) or one
`StreamURLFinished` emission. -/
inductive QobuzResult where
  | needLogin
  | emitFinished (id : Int) (original_url : String) (media_url : String)
      (filetype : SongFileType) (samplerate bit_depth : Int) (duration : Int)
      (error : String)
  deriving DecidableEq

/-- Model of `QobuzStreamURLRequest::StreamURLReceived`, after the `reply_`
guard.  `errors` is the `errors_` list accumulated so far (each
`Error(...)` call appends before `errors_.first()` is read);
`urlValid s` is `QUrl(s).isValid()`; `suffixFiletype m` is the result
of the `QMimeDatabase` suffix loop for mimetype `m` (possibly
`unknown`). -/
def streamURLReceived (song_id : Int) (original_url : String) (errors : List String)
    (authenticated login_sent : Bool) (tries : Int)
    (dataEmpty : Bool) (json : JObj)
    (urlValid : String → Bool) (suffixFiletype : String → SongFileType) : QobuzResult :=
  if dataEmpty then
    if ¬authenticated ∧ login_sent ∧ tries ≤ 1 then QobuzResult.needLogin
    else
      QobuzResult.emitFinished song_id original_url original_url SongFileType.stream
        (-1) (-1) (-1) (errors.headD "")
  else if json = ([] : JObj) then
    QobuzResult.emitFinished song_id original_url original_url SongFileType.stream
      (-1) (-1) (-1) (errors.headD "")
  else if ¬(jContains json "track_id" = true) then
    QobuzResult.emitFinished song_id original_url original_url SongFileType.stream
      (-1) (-1) (-1)
      ((errors ++ ["Invalid Json reply, stream url is missing track_id."]).headD "")
  else if ¬(jToInt (jGet json "track_id") = song_id) then
    QobuzResult.emitFinished song_id original_url original_url SongFileType.stream
      (-1) (-1) (-1) ((errors ++ ["Incorrect track ID returned."]).headD "")
  else if ¬(jContains json "mime_type" = true ∧ jContains json "url" = true) then
    QobuzResult.emitFinished song_id original_url original_url SongFileType.stream
      (-1) (-1) (-1)
      ((errors ++ ["Invalid Json reply, stream url is missing url or mime_type."]).headD "")
  else
    let url := jToString (jGet json "url")
    let mimetype := jToString (jGet json "mime_type")
    let ft0 := suffixFiletype mimetype
    let filetype := if ft0 = SongFileType.unknown then SongFileType.stream else ft0
    if ¬(urlValid url = true) then
      QobuzResult.emitFinished song_id original_url original_url filetype (-1) (-1) (-1)
        ((errors ++ ["Returned stream url is invalid."]).headD "")
    else
      let duration := if jContains json "duration" then
        jToInt (jGet json "duration") * kNsecPerSec else -1
      let samplerate := if jContains json "sampling_rate" then
        jToInt (jGet json "sampling_rate") * 1000 else -1
      let bit_depth := if jContains json "bit_depth" then
        jToInt (jGet json "bit_depth") else -1
      QobuzResult.emitFinished song_id original_url url filetype samplerate bit_depth
        duration ""

/-- Whether the result is a `StreamURLFinished` emission at all. -/
def isEmitFinished : QobuzResult → Bool
  | QobuzResult.emitFinished _ _ _ _ _ _ _ _ => true
  | QobuzResult.needLogin => false

/-- The emitted media URL, if anything was emitted. -/
def emittedUrl : QobuzResult → Option String
  | QobuzResult.emitFinished _ _ u _ _ _ _ _ => some u
  | QobuzResult.needLogin => none

/-- The emitted error string, if anything was emitted. -/
def emittedError : QobuzResult → Option String
  | QobuzResult.emitFinished _ _ _ _ _ _ _ e => some e
  | QobuzResult.needLogin => none

/-- C6 counterexample: the claim says an error is emitted whenever the
reply data is empty, but with `!authenticated && login_sent && tries_
<= 1` the empty-data branch sets `need_login_` and emits nothing. -/
theorem streamURLReceived_empty_data_no_emit :
    isEmitFinished
      (streamURLReceived 1 "orig" ["e"] false true 1 true ([] : JObj)
        (fun _ => true) (fun _ => SongFileType.unknown)) = false := rfl

/-- C6 (amended): every failed validation — empty reply data (except
the re-login case: not authenticated, login sent, at most one try,
which sets `need_login_` and emits nothing), empty extracted JSON,
missing `track_id`, `track_id` differing from the requested song id,
missing `mime_type` or `url`, invalid returned URL — emits
`StreamURLFinished` carrying the original URL and the first stored
error; only when every check passes does it emit the returned stream
URL with no error. -/
theorem streamURLReceived_validation (song_id : Int) (original_url : String)
    (errors : List String) (authenticated login_sent : Bool) (tries : Int)
    (dataEmpty : Bool) (json : JObj)
    (urlValid : String → Bool) (suffixFiletype : String → SongFileType) :
    (dataEmpty = true → authenticated = false → login_sent = true → tries ≤ 1 →
      streamURLReceived song_id original_url errors authenticated login_sent tries
        dataEmpty json urlValid suffixFiletype = QobuzResult.needLogin) ∧
    (dataEmpty = true → ¬(authenticated = false ∧ login_sent = true ∧ tries ≤ 1) →
      streamURLReceived song_id original_url errors authenticated login_sent tries
          dataEmpty json urlValid suffixFiletype
        = QobuzResult.emitFinished song_id original_url original_url SongFileType.stream
            (-1) (-1) (-1) (errors.headD "")) ∧
    (dataEmpty = false → json = ([] : JObj) →
      streamURLReceived song_id original_url errors authenticated login_sent tries
          dataEmpty json urlValid suffixFiletype
        = QobuzResult.emitFinished song_id original_url original_url SongFileType.stream
            (-1) (-1) (-1) (errors.headD "")) ∧
    (dataEmpty = false → json ≠ ([] : JObj) →
      (jContains json "track_id" = false ∨
        jToInt (jGet json "track_id") ≠ song_id ∨
        jContains json "mime_type" = false ∨
        jContains json "url" = false ∨
        urlValid (jToString (jGet json "url")) = false) →
      emittedUrl (streamURLReceived song_id original_url errors authenticated login_sent
          tries dataEmpty json urlValid suffixFiletype) = some original_url) ∧
    (dataEmpty = false → json ≠ ([] : JObj) →
      jContains json "track_id" = true →
      jToInt (jGet json "track_id") = song_id →
      jContains json "mime_type" = true →
      jContains json "url" = true →
      urlValid (jToString (jGet json "url")) = true →
      emittedUrl (streamURLReceived song_id original_url errors authenticated login_sent
            tries dataEmpty json urlValid suffixFiletype)
          = some (jToString (jGet json "url")) ∧
        emittedError (streamURLReceived song_id original_url errors authenticated
            login_sent tries dataEmpty json urlValid suffixFiletype) = some "") := by
  refine ⟨?_, ?_, ?_, ?_, ?_⟩
  · intro hd ha hl ht
    rw [streamURLReceived, if_pos hd, if_pos (by simp [ha, hl, ht])]
  · intro hd hcond
    rw [streamURLReceived, if_pos hd,
      if_neg (by simpa using fun ha hl => by simpa [ha, hl] using hcond)]
  · intro hd hj
    rw [streamURLReceived, if_neg (by simp [hd]), if_pos hj]
  · intro hd hj hfail
    rw [streamURLReceived, if_neg (by simp [hd]), if_neg hj]
    rcases hfail with h | h | h | h | h
    · rw [if_pos (by simp [h]), emittedUrl]
    · by_cases h1 : jContains json "track_id" = true
      · rw [if_neg (by simp [h1]), if_pos (by simp [h]), emittedUrl]
      · rw [if_pos (by simpa using h1), emittedUrl]
    · by_cases h1 : jContains json "track_id" = true
      · rw [if_neg (by simp [h1])]
        by_cases h2 : jToInt (jGet json "track_id") = song_id
        · rw [if_neg (by simp [h2]), if_pos (by simp [h]), emittedUrl]
        · rw [if_pos (by simp [h2]), emittedUrl]
      · rw [if_pos (by simpa using h1), emittedUrl]
    · by_cases h1 : jContains json "track_id" = true
      · rw [if_neg (by simp [h1])]
        by_cases h2 : jToInt (jGet json "track_id") = song_id
        · rw [if_neg (by simp [h2]), if_pos (by simp [h]), emittedUrl]
        · rw [if_pos (by simp [h2]), emittedUrl]
      · rw [if_pos (by simpa using h1), emittedUrl]
    · by_cases h1 : jContains json "track_id" = true
      · rw [if_neg (by simp [h1])]
        by_cases h2 : jToInt (jGet json "track_id") = song_id
        · rw [if_neg (by simp [h2])]
          by_cases h3 : jContains json "mime_type" = true ∧ jContains json "url" = true
          · rw [if_neg (by simp [h3]), if_pos (by simp [h]), emittedUrl]
          · rw [if_pos (by simpa using h3), emittedUrl]
        · rw [if_pos (by simp [h2]), emittedUrl]
      · rw [if_pos (by simpa using h1), emittedUrl]
  · intro hd hj h1 h2 h3 h4 h5
    rw [streamURLReceived, if_neg (by simp [hd]), if_neg hj, if_neg (by simp [h1]),
      if_neg (by simp [h2]), if_neg (by simp [h3, h4]), if_neg (by simp [h5])]
    exact ⟨rfl, rfl⟩

/-- C6 witness: a fully valid concrete reply emits the returned stream
URL with no error. -/
theorem streamURLReceived_validation_witness :
    emittedUrl
        (streamURLReceived 5 "orig" [] true false 1 false
          [("track_id", JVal.jnum 5), ("mime_type", JVal.jstr "audio/flac"),
           ("url", JVal.jstr "http.x")]
          (fun _ => true) (fun _ => SongFileType.known 3))
      = some "http.x" :=
  ((streamURLReceived_validation 5 "orig" [] true false 1 false
      [("track_id", JVal.jnum 5), ("mime_type", JVal.jstr "audio/flac"),
       ("url", JVal.jstr "http.x")]
      (fun _ => true) (fun _ => SongFileType.known 3)).2.2.2.2
    rfl (by decide) (by decide) (by decide) (by decide) (by decide) rfl).1

/-!
### StretchHeaderView — src/src/widgets/stretchheaderview.cpp

The header view is modelled by its per-logical-index sections (hidden
flag and stored size; `QHeaderView::sectionSize` of a hidden section is
0), the visual order (a list mapping visual position to logical
index), the stretch flag, the stored proportional column widths
(`qreal`, modelled on ℚ), the widget width and the sort indicator.
Qt's section operations ignore out-of-range indices.
`qFuzzyCompare(total_sum, 1.0)` is modelled as exact equality on ℚ,
and the C++ `int pixels = w * width()` double-to-int conversion as
truncation toward zero.
-/

/-- Replace the element at an index, leaving the list unchanged when
the index is out of range. -/
def modifyAt {α : Type} (f : α → α) : List α → Nat → List α
  | [], _ => []
  | x :: xs, 0 => f x :: xs
  | x :: xs, n + 1 => x :: modifyAt f xs n

theorem modifyAt_getD_ne {α : Type} (f : α → α) (l : List α) (n m : Nat) (d : α)
    (h : m ≠ n) : (modifyAt f l n).getD m d = l.getD m d := by
  induction l generalizing n m with
  | nil => rfl
  | cons x xs ih =>
    cases n with
    | zero =>
      cases m with
      | zero => exact absurd rfl h
      | succ m => rfl
    | succ n =>
      cases m with
      | zero => rfl
      | succ m =>
        simp only [modifyAt, List.getD_cons_succ]
        exact ih n m (fun he => h (by rw [he]))

/-- Map with the element index, starting at `i`. -/
def mapWithIdx {α β : Type} (f : Nat → α → β) : Nat → List α → List β
  | _, [] => []
  | i, x :: xs => f i x :: mapWithIdx f (i + 1) xs

/-- One header section: its hidden flag and its stored (visible)
size. -/
structure HeaderSection where
  hidden : Bool
  size : Int
  deriving DecidableEq

/-- The `StretchHeaderView` state: sections by logical index, visual
order, `stretch_enabled_`, `column_widths_`, the widget `width()` and
the sort indicator. -/
structure HeaderView where
  sections : List HeaderSection
  visual : List Nat
  stretch_enabled : Bool
  column_widths : List ℚ
  widget_width : Int
  sort_order : Int
  sort_section : Int
  deriving DecidableEq

def hdrCount (st : HeaderView) : Nat := st.sections.length

/-- Model of `QHeaderView::isSectionHidden`. -/
def isSectionHidden (st : HeaderView) (i : Nat) : Bool :=
  (st.sections.getD i ⟨false, 0⟩).hidden

/-- Model of `QHeaderView::sectionSize`: 0 for a hidden section. -/
def sectionSize (st : HeaderView) (i : Nat) : Int :=
  if (st.sections.getD i ⟨false, 0⟩).hidden then 0
  else (st.sections.getD i ⟨false, 0⟩).size

/-- Model of `QHeaderView::hideSection`. -/
def qtHideSection (st : HeaderView) (i : Nat) : HeaderView :=
  { st with sections := modifyAt (fun s => { s with hidden := true }) st.sections i }

/-- Model of `QHeaderView::showSection`. -/
def qtShowSection (st : HeaderView) (i : Nat) : HeaderView :=
  { st with sections := modifyAt (fun s => { s with hidden := false }) st.sections i }

/-- Model of `QHeaderView::setSectionHidden`. -/
def qtSetSectionHidden (st : HeaderView) (i : Nat) (hide : Bool) : HeaderView :=
  if hide then qtHideSection st i else qtShowSection st i

/-- Model of `QHeaderView::resizeSection`. -/
def qtResizeSection (st : HeaderView) (i : Nat) (px : Int) : HeaderView :=
  { st with sections := modifyAt (fun s => { s with size := px }) st.sections i }

/-- Model of `QHeaderView::visualIndex`: -1 when the logical index is unknown. -/
def visualIndex (st : HeaderView) (logical : Int) : Int :=
  match st.visual.findIdx? (fun l => (l : Int) == logical) with
  | some v => (v : Int)
  | none => -1

/-- Model of `QHeaderView::moveSection` on visual positions; invalid positions
and `from == to` do nothing. -/
def moveSection (st : HeaderView) (vfrom vto : Int) : HeaderView :=
  if vfrom = vto then st
  else if vfrom < 0 ∨ vto < 0 ∨ (st.visual.length : Int) ≤ vfrom ∨
      (st.visual.length : Int) ≤ vto then st
  else
    let l := st.visual.getD vfrom.toNat 0
    { st with visual := (st.visual.eraseIdx vfrom.toNat).insertIdx vto.toNat l }

/-- C++ `int pixels = w * width()`: double-to-int conversion truncates
toward zero (`x.num.tdiv x.den` on ℚ). -/
def qTrunc (x : ℚ) : Int := Int.tdiv x.num (x.den : Int)

def kMinimumColumnWidth : Int := 10

def kMagicNumber : Int := 0x502c950f

/-- Model of `StretchHeaderView::NormaliseWidths`: when stretching, rescale the
selected widths (all of them when `sections` is empty) so the total
becomes 1, unless the total is 0 or already (fuzzily) 1. -/
def normaliseWidths (st : HeaderView) (secs : List Nat) : HeaderView :=
  if st.stretch_enabled = false then st
  else
    let total_sum : ℚ := st.column_widths.sum
    let selected_sum : ℚ :=
      if secs = [] then total_sum
      else ((List.range (hdrCount st)).filter (fun i => secs.contains i)).foldl
        (fun acc i => acc + st.column_widths.getD i 0) 0
    if total_sum ≠ 0 ∧ total_sum ≠ 1 then
      let mult := (selected_sum + (1 - total_sum)) / selected_sum
      let cw := mapWithIdx
        (fun i w => if secs = [] ∨ secs.contains i then w * mult else w) 0
        st.column_widths
      { st with column_widths := cw }
    else st

/-- The body of one `UpdateWidths` loop iteration for index `i`. -/
def updateWidthStep (secs : List Nat) (acc : HeaderView) (i : Nat) : HeaderView :=
  let w : ℚ := acc.column_widths.getD i 0
  let pixels : Int := qTrunc (w * (acc.widget_width : ℚ))
  if secs ≠ [] ∧ secs.contains i = false then acc
  else
    let acc1 :=
      if pixels = 0 ∧ isSectionHidden acc i = false then qtHideSection acc i
      else if pixels ≠ 0 ∧ isSectionHidden acc i = true then qtShowSection acc i
      else acc
    if pixels ≠ 0 then qtResizeSection acc1 i pixels else acc1

/-- Model of `StretchHeaderView::UpdateWidths`: when stretching, walk the stored
widths; skip indices outside `sections` (when non-empty); hide a
section whose pixel width is 0, show a hidden one whose pixel width is
non-zero, and resize to the pixel width when non-zero. -/
def updateWidths (st : HeaderView) (secs : List Nat) : HeaderView :=
  if st.stretch_enabled = false then st
  else (List.range st.column_widths.length).foldl (updateWidthStep secs) st

/-- The guard loop of `StretchHeaderView::HideSection`: every section
other than `logical` is already hidden or has size 0 (so hiding
`logical` would hide the last visible section). -/
def wouldHideLast (st : HeaderView) (logical : Nat) : Prop :=
  ∀ i < hdrCount st, i ≠ logical →
    isSectionHidden st i = true ∨ sectionSize st i ≤ 0

instance (st : HeaderView) (logical : Nat) : Decidable (wouldHideLast st logical) := by
  unfold wouldHideLast
  exact Nat.decidableBallLT _ _

/-- Model of `StretchHeaderView::HideSection`: return if this would hide the
last visible section; otherwise plain `hideSection` when stretch is
disabled, else zero the stored width, normalise and update. -/
def HideSection (st : HeaderView) (logical : Nat) : HeaderView :=
  if wouldHideLast st logical then st
  else if st.stretch_enabled = false then qtHideSection st logical
  else
    updateWidths
      (normaliseWidths
        { st with column_widths := modifyAt (fun _ => 0) st.column_widths logical }
        []) []

/-!
`RestoreState` deserializes a `QDataStream` (big-endian).  The byte
array is a list of bytes; reading past the end yields 0 and leaves the
stream exhausted, as `QDataStream` does.  Qt-serialized doubles are
decoded by an arbitrary function `decodeDouble` from their 8 bytes —
the IEEE-754 bit layout is not modelled; no claim depends on the
decoded values.
-/

/-- A big-endian `qint32` (two's complement). -/
def readInt32 (s : List Nat) : Int × List Nat :=
  match s with
  | b0 :: b1 :: b2 :: b3 :: rest =>
    let v : Nat := (b0 % 256) * 16777216 + (b1 % 256) * 65536 + (b2 % 256) * 256 + b3 % 256
    (if v < 2147483648 then (v : Int) else (v : Int) - 4294967296, rest)
  | _ => (0, [])

/-- A big-endian `quint32`. -/
def readUInt32 (s : List Nat) : Nat × List Nat :=
  match s with
  | b0 :: b1 :: b2 :: b3 :: rest =>
    ((b0 % 256) * 16777216 + (b1 % 256) * 65536 + (b2 % 256) * 256 + b3 % 256, rest)
  | _ => (0, [])

/-- A serialized `bool` (one byte). -/
def readBool (s : List Nat) : Bool × List Nat :=
  match s with
  | b :: rest => (b ≠ 0, rest)
  | [] => (false, [])

def readInts : Nat → List Nat → List Int × List Nat
  | 0, s => ([], s)
  | n + 1, s =>
    let (v, s1) := readInt32 s
    let (vs, s2) := readInts n s1
    (v :: vs, s2)

/-- A serialized `QList<int>`: a `quint32` count, then the elements. -/
def readIntList (s : List Nat) : List Int × List Nat :=
  let (n, s1) := readUInt32 s
  readInts n s1

def readDoubles (decode : List Nat → ℚ) : Nat → List Nat → List ℚ × List Nat
  | 0, s => ([], s)
  | n + 1, s =>
    let v := decode (s.take 8)
    let (vs, s2) := readDoubles decode n (s.drop 8)
    (v :: vs, s2)

/-- A serialized `QList<double>`: a `quint32` count, then 8 bytes per
element. -/
def readDoubleList (decode : List Nat → ℚ) (s : List Nat) : List ℚ × List Nat :=
  let (n, s1) := readUInt32 s
  readDoubles decode n s1

/-- One iteration of the `RestoreState` section loop for index `i`. -/
def restoreSectionStep (pixel_widths visual_indices : List Int)
    (acc : HeaderView) (i : Nat) : HeaderView :=
  let acc1 := qtSetSectionHidden acc i (pixel_widths.getD i 0 ≤ kMinimumColumnWidth)
  let acc2 := moveSection acc1 (visualIndex acc1 (visual_indices.getD i 0)) (i : Int)
  if acc2.stretch_enabled = false then qtResizeSection acc2 i (pixel_widths.getD i 0)
  else acc2

/-- Model of `StretchHeaderView::RestoreState`: read the magic number; reject
the data when it differs from `kMagicNumber` or nothing follows it.
Otherwise read the stretch flag, pixel widths, visual indices, stored
column widths and sort indicator, apply hidden state/positions/pixel
widths for the persisted columns, pad the stored widths to the column
count and, in stretch mode, apply the proportional widths. -/
def restoreState (st : HeaderView) (sdata : List Nat)
    (decodeDouble : List Nat → ℚ) : Bool × HeaderView :=
  let magic_number := (readInt32 sdata).1
  let s1 := (readInt32 sdata).2
  if magic_number ≠ kMagicNumber ∨ s1 = [] then (false, st)
  else
    let stretch := (readBool s1).1
    let s2 := (readBool s1).2
    let pixel_widths := (readIntList s2).1
    let s3 := (readIntList s2).2
    let visual_indices := (readIntList s3).1
    let s4 := (readIntList s3).2
    let cws := (readDoubleList decodeDouble s4).1
    let s5 := (readDoubleList decodeDouble s4).2
    let sort_indicator_order := (readInt32 s5).1
    let s6 := (readInt32 s5).2
    let sort_indicator_sec := (readInt32 s6).1
    let st1 := { st with
      stretch_enabled := stretch
      column_widths := cws
      sort_order := sort_indicator_order
      sort_section := sort_indicator_sec }
    let persisted := min (min visual_indices.length pixel_widths.length) cws.length
    let st2 := (List.range (min (hdrCount st1) persisted)).foldl
      (restoreSectionStep pixel_widths visual_indices) st1
    let st3 := { st2 with column_widths :=
      st2.column_widths ++ List.replicate (hdrCount st2 - st2.column_widths.length) 0 }
    let st4 := if st3.stretch_enabled = true then updateWidths st3 [] else st3
    (true, st4)

/-- C9: `RestoreState` rejects foreign data: when the first
deserialized int differs from the magic number 0x502c950f, or nothing
follows it, it returns false with the view — stretch flag, stored
column widths, sort indicator, and every section's visibility,
position and size — unmodified. -/
theorem restoreState_rejects_foreign (st : HeaderView) (sdata : List Nat)
    (decodeDouble : List Nat → ℚ)
    (h : (readInt32 sdata).1 ≠ kMagicNumber ∨ (readInt32 sdata).2 = []) :
    restoreState st sdata decodeDouble = (false, st) := by
  simp only [restoreState]
  rw [if_pos h]

/-- C9 witness: a concrete byte array with a wrong magic number leaves
a concrete view untouched. -/
theorem restoreState_rejects_foreign_witness :
    restoreState ⟨[⟨false, 10⟩], [0], false, [1], 100, 0, 0⟩ [1, 2, 3, 4] (fun _ => 0)
      = (false, ⟨[⟨false, 10⟩], [0], false, [1], 100, 0, 0⟩) :=
  restoreState_rejects_foreign ⟨[⟨false, 10⟩], [0], false, [1], 100, 0, 0⟩
    [1, 2, 3, 4] (fun _ => 0) (by decide)

/-- C8 counterexample: with stretch enabled and widget width 0, hiding
section 0 of two visible sections makes `UpdateWidths` hide every
section — no section remains visible, contradicting the claim's
"after any sequence of HideSection calls at least one section remains
visible". -/
theorem HideSection_can_hide_all_sections :
    List.all
      (HideSection ⟨[⟨false, 10⟩, ⟨false, 10⟩], [0, 1], true, [1/2, 1/2], 0, 0, 0⟩ 0).sections
      HeaderSection.hidden = true := by
  rw [HideSection, if_neg (by decide), if_neg (by decide)]
  have hmod : modifyAt (fun _ => (0 : ℚ)) [1/2, 1/2] 0 = [0, 1/2] := by
    norm_num [modifyAt]
  have hn : normaliseWidths
      (⟨[⟨false, 10⟩, ⟨false, 10⟩], [0, 1], true, [0, 1/2], 0, 0, 0⟩ : HeaderView) []
      = (⟨[⟨false, 10⟩, ⟨false, 10⟩], [0, 1], true, [0, 1], 0, 0, 0⟩ : HeaderView) := by
    rw [normaliseWidths]
    norm_num [mapWithIdx]
  have hu : updateWidths
      (⟨[⟨false, 10⟩, ⟨false, 10⟩], [0, 1], true, [0, 1], 0, 0, 0⟩ : HeaderView) []
      = (⟨[⟨true, 10⟩, ⟨true, 10⟩], [0, 1], true, [0, 1], 0, 0, 0⟩ : HeaderView) := by
    rw [updateWidths]
    norm_num [List.range_succ, updateWidthStep, qTrunc, isSectionHidden,
      qtHideSection, qtShowSection, qtResizeSection, modifyAt]
  simp only [hmod, hn, hu]
  rfl

theorem HideSection_preserves_visible_nonstretch (st : HeaderView) (l : Nat)
    (hstretch : st.stretch_enabled = false)
    (h : ∃ i, isSectionHidden st i = false ∧ 0 < sectionSize st i) :
    (HideSection st l).stretch_enabled = false ∧
    ∃ i, isSectionHidden (HideSection st l) i = false ∧
      0 < sectionSize (HideSection st l) i := by
  by_cases hg : wouldHideLast st l
  · rw [HideSection, if_pos hg]
    exact ⟨hstretch, h⟩
  · rw [HideSection, if_neg hg, if_pos hstretch]
    refine ⟨hstretch, ?_⟩
    rw [wouldHideLast] at hg
    push_neg at hg
    obtain ⟨i, _, hil, hhid, hsz⟩ := hg
    refine ⟨i, ?_, ?_⟩
    · rw [isSectionHidden] at hhid ⊢
      simp only [qtHideSection]
      rw [modifyAt_getD_ne _ _ _ _ _ hil]
      cases hb : (st.sections.getD i ⟨false, 0⟩).hidden
      · rfl
      · exact absurd hb hhid
    · rw [sectionSize] at hsz ⊢
      simp only [qtHideSection]
      rw [modifyAt_getD_ne _ _ _ _ _ hil]
      exact hsz

/-- C8 (amended): `StretchHeaderView::HideSection` returns without any
change when every other section is hidden or has size 0; hence, while
stretch mode is disabled, after any sequence of `HideSection` calls at
least one section with positive size remains visible.  (With stretch
enabled this fails: `UpdateWidths` hides every section whose computed
pixel width is 0, e.g. when the widget width is 0.) -/
theorem HideSection_guard_and_nonstretch_invariant (st : HeaderView) (logical : Nat) :
    (wouldHideLast st logical → HideSection st logical = st) ∧
    (st.stretch_enabled = false →
      (∃ i, isSectionHidden st i = false ∧ 0 < sectionSize st i) →
      ∀ calls : List Nat,
        ∃ j, isSectionHidden (calls.foldl HideSection st) j = false ∧
          0 < sectionSize (calls.foldl HideSection st) j) := by
  constructor
  · intro hg
    rw [HideSection, if_pos hg]
  · intro hstretch h calls
    induction calls generalizing st with
    | nil => exact h
    | cons c rest ih =>
      obtain ⟨h1, h2⟩ := HideSection_preserves_visible_nonstretch st c hstretch h
      exact ih (HideSection st c) h1 h2

/-- C8 witness: the guard keeps the state unchanged when section 0 is
the only visible one, and with stretch disabled a visible section
survives a concrete sequence of calls. -/
theorem HideSection_guard_witness :
    HideSection ⟨[⟨false, 10⟩, ⟨true, 10⟩], [0, 1], false, [], 100, 0, 0⟩ 0
      = ⟨[⟨false, 10⟩, ⟨true, 10⟩], [0, 1], false, [], 100, 0, 0⟩ ∧
    ∃ j, isSectionHidden
        (([0, 1] : List Nat).foldl HideSection
          ⟨[⟨false, 10⟩, ⟨false, 10⟩], [0, 1], false, [], 100, 0, 0⟩) j = false ∧
      0 < sectionSize
        (([0, 1] : List Nat).foldl HideSection
          ⟨[⟨false, 10⟩, ⟨false, 10⟩], [0, 1], false, [], 100, 0, 0⟩) j :=
  ⟨(HideSection_guard_and_nonstretch_invariant
      ⟨[⟨false, 10⟩, ⟨true, 10⟩], [0, 1], false, [], 100, 0, 0⟩ 0).1 (by decide),
   (HideSection_guard_and_nonstretch_invariant
      ⟨[⟨false, 10⟩, ⟨false, 10⟩], [0, 1], false, [], 100, 0, 0⟩ 0).2 rfl
     ⟨0, rfl, by decide⟩ [0, 1]⟩

end Strawberry
